import Mathlib

/-!
Verification development for the `searchPeriod` workflow of the
`jgclark.SearchExtensions` plugin (`src/jgclark.SearchExtensions/src/saveSearchPeriod.js`).

The JS function `searchPeriod` is embedded as a deterministic interpreter over an
oracle environment `Env` that supplies the results of every external collaborator
(user prompts, the search API, the settings store, the editor state).  The
interpreter produces the ordered list of observable effects (`Event`s) the JS code
performs, together with a top-level outcome (`Except String Unit`, where `.error`
models an exception escaping the `try` block before the `catch` at the bottom of
the function handles it).

Collaborator code that is not under `src/` (the date-format tests and
`unhyphenateString` from `@helpers/dateTime`, and `replaceSection` from
`@helpers/note`) is modelled from the spec, as marked on each definition.
-/

set_option autoImplicit false

namespace NotePlan

/-- Configuration settings relevant to `searchPeriod`, per the settings object
returned by `getSearchSettings` (fields as enumerated in spec section 9). -/
structure SearchConfig where
  headingLevel : Nat
  autoSave : Bool
  defaultSearchTerms : List String
  folderToStore : String
  searchHeading : String
deriving Repr, DecidableEq

/-- Arguments of `searchPeriod` (source lines 61-67).  `none` models the JS
`undefined`; the JS defaults (`fromDateArg = toDateArg = "default"`) are applied
by callers of this embedding by passing the sentinel strings explicitly. -/
structure Args where
  searchTermsArg : Option String
  fromDateArg : String
  toDateArg : String
  paraTypeFilterArg : String
  destinationArg : Option String
deriving Repr, DecidableEq

/-- Shape of the resolved search result set (`resultOutputTypeV3`), restricted to
the fields `searchPeriod` reads: `resultCount` and `searchTermsRepArr`. -/
structure ResultSet where
  resultCount : Nat
  searchTermsRepArr : List String
deriving Repr, DecidableEq

/-- Observable effects performed by `searchPeriod`: log calls, user dialogs and
prompts, the search invocation, the formatter invocation, and the note writes. -/
inductive Event where
  | logDebug : String → Event
  | logInfo : String → Event
  | logError : String → Event
  | showMessage : String → Event
  | promptPeriod : Event
  | promptInput : Event
  | promptOptions : List (String × String) → String → Event
  | showLoading : Bool → Event
  | runSearches : List String → String → String → Event
  | formatResults : Event
  | replaceSectionEv : String → String → Nat → Event
  | writeNote : String → String → Event
  | openNote : String → Event
deriving Repr, DecidableEq

/-- Coarse classification of an event, used to state which effects a given run
does or does not perform. -/
inductive ETag where
  | logD | logI | logE | msg | pPeriod | pInput | pOpts | loading | search
  | format | replaceS | writeN | openN
deriving Repr, DecidableEq

/-- Tag of an event. -/
def Event.tag : Event → ETag
  | .logDebug _ => .logD
  | .logInfo _ => .logI
  | .logError _ => .logE
  | .showMessage _ => .msg
  | .promptPeriod => .pPeriod
  | .promptInput => .pInput
  | .promptOptions _ _ => .pOpts
  | .showLoading _ => .loading
  | .runSearches _ _ _ => .search
  | .formatResults => .format
  | .replaceSectionEv _ _ _ => .replaceS
  | .writeNote _ _ => .writeN
  | .openNote _ => .openN

/-- Oracle environment: the result each external collaborator would return for
this invocation.  `Except.error` models the collaborator throwing / the promise
rejecting. -/
structure Env where
  config : SearchConfig
  /-- Result of `getPeriodStartEndDates` (interactive period prompt): the
  from/to dates already rendered via `unhyphenatedDate` (with `none` for a
  `null` date), then the period type, `periodString` and `periodAndPartStr`. -/
  userPeriod : Except String ((Option String) × (Option String) × String × String × String)
  /-- Result of `getInput` for search terms; `none` models the boolean returned
  on cancel. -/
  userTerms : Except String (Option String)
  /-- Result of `validateAndTypeSearchTerms` on a given expression; `none`
  models a `null` return. -/
  validate : String → Except String (Option (List String))
  /-- Value chosen by the user in the destination `chooseOption` dialog. -/
  userDestination : Except String String
  /-- Resolution of the `runSearchesV2` promise. -/
  searchResult : Except String ResultSet
  /-- Rendering performed by `getSearchTermsRep`. -/
  getSearchTermsRep : List String → String
  /-- Lines produced by `createFormattedResultLines`. -/
  formattedLines : List String
  /-- Filename of `Editor.note`, or `none` when no note is open. -/
  editorNote : Option String
  /-- Result of `writeSearchResultsToNote`. -/
  writeNoteFilename : Except String String
  /-- Result of `noteOpenInEditor` on that filename. -/
  noteOpenInEditor : Bool

/-- Intermediate control outcome of one stage of `searchPeriod`: continue with a
value, return early (a plain `return` in the JS), or propagate an exception. -/
inductive Step (α : Type) where
  | next : α → Step α
  | done : Step α
  | thrown : String → Step α
deriving Repr

/-- Lexicographic comparison of character lists by code point, the order JS
uses for `<` / `>` on strings. -/
def charListLt : List Char → List Char → Bool
  | [], [] => false
  | [], _ :: _ => true
  | _ :: _, [] => false
  | a :: as, b :: bs =>
    if a.toNat < b.toNat then true
    else if b.toNat < a.toNat then false
    else charListLt as bs

/-- JS string comparison `a < b` (lexicographic by code unit). -/
def strLt (a b : String) : Bool := charListLt a.data b.data

/-- Prefix test on character lists, by code point. -/
def charPrefix : List Char → List Char → Bool
  | [], _ => true
  | _ :: _, [] => false
  | a :: as, b :: bs => (a.toNat == b.toNat) && charPrefix as bs

/-- Whether `p` is a prefix of `s`. -/
def strPrefix (p s : String) : Bool := charPrefix p.data s.data

/-- Modelled from the spec: the `RE_ISO_DATE` test from `@helpers/dateTime`
(not under `src/`) — accepts the `YYYY-MM-DD` date format. -/
def matchesISODate (s : String) : Bool :=
  match s.data with
  | [a, b, c, d, '-', e, f, '-', g, h] =>
    a.isDigit && b.isDigit && c.isDigit && d.isDigit && e.isDigit && f.isDigit
      && g.isDigit && h.isDigit
  | _ => false

/-- Modelled from the spec: the `RE_YYYYMMDD_DATE` test from `@helpers/dateTime`
(not under `src/`) — accepts the compact `YYYYMMDD` date format. -/
def matchesYYYYMMDD (s : String) : Bool :=
  s.data.length = 8 && s.data.all Char.isDigit

/-- Modelled from the spec: `unhyphenateString` from `@helpers/dateTime`
(not under `src/`) — converts `YYYY-MM-DD` to `YYYYMMDD` by dropping hyphens. -/
def unhyphenateString (s : String) : String :=
  (s.data.filter (fun c => c ≠ '-')).asString

/-- Date-argument normalisation as written at source lines 90-94 and 100-104:
an ISO date is unhyphenated, a compact date is kept, anything else becomes the
literal string `"error"`. -/
def parseDateArg (s : String) : String :=
  if matchesISODate s then unhyphenateString s
  else if matchesYYYYMMDD s then s
  else "error"

/-- Period resolution, source lines 76-120.  Returns
`(fromDateStr, toDateStr, periodString, periodAndPartStr)`.  In the
non-interactive branch the condition guarding the `toDate` defaulting at source
line 96 tests `fromDateArg === 'default'` (not `toDateArg`), and this embedding
preserves that. -/
def periodStage (args : Args) (env : Env) :
    List Event × Step (String × String × String × String) :=
  match args.searchTermsArg with
  | some _ =>
    let fromDateStr := if args.fromDateArg = "default" then "" else parseDateArg args.fromDateArg
    let toDateStr := if args.fromDateArg = "default" then "" else parseDateArg args.toDateArg
    let periodString := fromDateStr ++ " - " ++ toDateStr
    ([], Step.next (fromDateStr, toDateStr, periodString, periodString))
  | none =>
    match env.userPeriod with
    | Except.error e => ([Event.promptPeriod], Step.thrown e)
    | Except.ok (some fromDateStr, some toDateStr, _, periodString, periodAndPartStr0) =>
      let periodAndPartStr := if periodAndPartStr0 = "" then periodString else periodAndPartStr0
      ([Event.promptPeriod], Step.next (fromDateStr, toDateStr, periodString, periodAndPartStr))
    | Except.ok _ =>
      ([Event.promptPeriod,
        Event.logError "dates could not be parsed for requested time period"], Step.done)

/-- Search-terms acquisition, source lines 127-144. -/
def termsStage (args : Args) (env : Env) : List Event × Step String :=
  match args.searchTermsArg with
  | some s => ([Event.logDebug ("- arg0 -> search term(s) [" ++ s ++ "]")], Step.next s)
  | none =>
    match env.userTerms with
    | Except.error e => ([Event.promptInput], Step.thrown e)
    | Except.ok none => ([Event.promptInput, Event.logInfo "User has cancelled operation."], Step.done)
    | Except.ok (some s) => ([Event.promptInput], Step.next s)

/-- Dialog message shown when term validation fails (source line 150). -/
def invalidTermsMsg : String :=
  "These search terms are not valid. Please see Plugin Console for details."

/-- Term validation, source lines 147-152: a `null` or empty result from
`validateAndTypeSearchTerms` produces a user dialog and an early return. -/
def validateStage (env : Env) (termsToMatchStr : String) : List Event × Step (List String) :=
  match env.validate termsToMatchStr with
  | Except.error e => ([], Step.thrown e)
  | Except.ok none => ([Event.showMessage invalidTermsMsg], Step.done)
  | Except.ok (some []) => ([Event.showMessage invalidTermsMsg], Step.done)
  | Except.ok (some (t :: ts)) => ([], Step.next (t :: ts))

/-- Options offered by the destination `chooseOption` dialog (source
lines 178-188), as label/value pairs. -/
def destinationOptions (env : Env) (periodString : String) : List (String × String) :=
  [("Create/update note " ++ periodString ++ " in folder " ++ env.config.folderToStore, "newnote"),
   ("Append/update your current note", "current"),
   ("Write to plugin console log", "log"),
   ("Cancel", "cancel")]

/-- Destination selection, source lines 171-189: forced to `newnote` when called
non-interactively or when `config.autoSave` is set, otherwise solicited from the
user with `newnote` as the default choice. -/
def destinationStage (calledNonInteractively : Bool) (env : Env) (periodString : String) :
    List Event × Step String :=
  if calledNonInteractively || env.config.autoSave then ([], Step.next "newnote")
  else
    match env.userDestination with
    | Except.error e =>
      ([Event.promptOptions (destinationOptions env periodString) "newnote"], Step.thrown e)
    | Except.ok d =>
      ([Event.promptOptions (destinationOptions env periodString) "newnote"], Step.next d)

/-- Output routing, source lines 204-268 (the `switch` on `destination`,
preceded by the formatter call at line 207). -/
def outputStage (env : Env) (destination termsToMatchStr periodAndPartStr : String)
    (rs : ResultSet) : List Event × Except String Unit :=
  let searchTermsRepStr := "[" ++ String.intercalate " " rs.searchTermsRepArr ++ "]"
  let headingMarker := (List.replicate env.config.headingLevel '#').asString
  if destination = "current" then
    match env.editorNote with
    | none => ([Event.formatResults, Event.logError "No note is open"], Except.ok ())
    | some fn =>
      let thisResultHeading :=
        searchTermsRepStr ++ " (" ++ toString rs.resultCount ++ " results) for " ++ periodAndPartStr
      ([Event.formatResults,
        Event.logDebug ("Will write update/append to current note (" ++ fn ++ ")"),
        Event.formatResults,
        Event.replaceSectionEv searchTermsRepStr thisResultHeading env.config.headingLevel],
       Except.ok ())
  else if destination = "newnote" then
    let titleToMatch := termsToMatchStr ++ " " ++ env.config.searchHeading
    let requestedTitle :=
      termsToMatchStr ++ " " ++ env.config.searchHeading ++ " for " ++ periodAndPartStr
    match env.writeNoteFilename with
    | Except.error e =>
      ([Event.formatResults, Event.writeNote requestedTitle titleToMatch], Except.error e)
    | Except.ok fn =>
      if env.noteOpenInEditor then
        ([Event.formatResults, Event.writeNote requestedTitle titleToMatch,
          Event.logDebug ("- filename to open in split: " ++ fn),
          Event.logDebug ("- note " ++ fn ++ " already open in an editor window")], Except.ok ())
      else
        ([Event.formatResults, Event.writeNote requestedTitle titleToMatch,
          Event.logDebug ("- filename to open in split: " ++ fn),
          Event.openNote fn], Except.ok ())
  else if destination = "log" then
    ([Event.formatResults, Event.formatResults,
      Event.logInfo (headingMarker ++ " " ++ searchTermsRepStr ++ " ("
        ++ toString rs.resultCount ++ " results) for " ++ periodAndPartStr),
      Event.logInfo (String.intercalate "\n" env.formattedLines)], Except.ok ())
  else if destination = "cancel" then
    ([Event.formatResults, Event.logInfo "User cancelled command"], Except.ok ())
  else
    ([Event.formatResults, Event.logError "No valid save location code supplied"], Except.ok ())

/-- Sequencing of a stage with the rest of the run: an early `return` or an
exception in the stage ends the run with the stage trace; otherwise the
continuation trace follows the stage trace. -/
def seqStep {α : Type} (s : List Event × Step α) (k : α → List Event × Except String Unit) :
    List Event × Except String Unit :=
  match s with
  | (tr, Step.thrown e) => (tr, Except.error e)
  | (tr, Step.done) => (tr, Except.ok ())
  | (tr, Step.next a) => (tr ++ (k a).1, (k a).2)

/-- Prepends straight-line effects to a run. -/
def withEvents (evs : List Event) (r : List Event × Except String Unit) :
    List Event × Except String Unit := (evs ++ r.1, r.2)

/-- Body of `searchPeriod` inside the `try` block (source lines 68-268).  The
search invocation event is emitted where the promise is created (line 166); the
promise is resolved where the JS awaits it (line 195). -/
def searchPeriodBody (args : Args) (env : Env) : List Event × Except String Unit :=
  seqStep (periodStage args env) fun pr =>
  match pr with
  | (fromDateStr, toDateStr, periodString, periodAndPartStr) =>
    if strLt toDateStr fromDateStr then
      ([Event.logError ("Stopping: fromDate " ++ fromDateStr ++ " is after toDate " ++ toDateStr)],
       Except.ok ())
    else
      withEvents [Event.logDebug ("- time period for search: " ++ periodString ++ " / " ++ periodAndPartStr)] <|
      seqStep (termsStage args env) fun termsToMatchStr =>
        withEvents [Event.logDebug ("- called non-interactively? "
          ++ toString args.searchTermsArg.isSome)] <|
        seqStep (validateStage env termsToMatchStr) fun validatedSearchTerms =>
          withEvents [Event.logDebug "arg3 -> para types", Event.showLoading true,
            Event.runSearches validatedSearchTerms fromDateStr toDateStr] <|
          seqStep (destinationStage args.searchTermsArg.isSome env periodString) fun destination =>
            withEvents [Event.logDebug ("destination = " ++ destination
              ++ ", started with destinationArg = " ++ args.destinationArg.getD "undefined")] <|
            match env.searchResult with
            | Except.error e => ([], Except.error e)
            | Except.ok resultSet =>
              withEvents [Event.showLoading false] <|
              if resultSet.resultCount = 0 then
                ([Event.logDebug ("No results found for search "
                    ++ env.getSearchTermsRep validatedSearchTerms),
                  Event.showMessage ("No results found for search "
                    ++ env.getSearchTermsRep validatedSearchTerms)], Except.ok ())
              else
                outputStage env destination termsToMatchStr periodAndPartStr resultSet

/-- Full `searchPeriod`, including the top-level `catch` (source lines 269-271)
which logs the exception message and swallows it. -/
def searchPeriod (args : Args) (env : Env) : List Event × Except String Unit :=
  match searchPeriodBody args env with
  | (tr, Except.ok _) => (tr, Except.ok ())
  | (tr, Except.error e) => (tr ++ [Event.logError e], Except.ok ())

/-- Line of a note body: a markdown heading (with its level) or a plain body
line. -/
inductive NLine where
  | heading : Nat → String → NLine
  | body : String → NLine
deriving Repr, DecidableEq

/-- Whether a note line is a heading whose text starts with `key` (the way the
`current`-destination write locates the section for the search-terms
representation: the written heading extends the representation with a result
count and period suffix). -/
def matchesHeading (key : String) : NLine → Bool
  | .heading _ t => strPrefix key t
  | .body _ => false

/-- Whether a note line is a plain body line. -/
def NLine.isBody : NLine → Bool
  | .body _ => true
  | .heading _ _ => false

/-- Replace the first section whose heading matches `key`: the heading line and
the body lines following it (up to the next heading) are replaced by the new
heading and body. -/
def replaceFirstSection (key newHeading : String) (level : Nat) (bodyLines : List String) :
    List NLine → List NLine
  | [] => []
  | x :: rest =>
    if matchesHeading key x then
      NLine.heading level newHeading :: bodyLines.map NLine.body ++ rest.dropWhile NLine.isBody
    else
      x :: replaceFirstSection key newHeading level bodyLines rest

/-- Modelled from the spec: `replaceSection` from `@helpers/note` (not under
`src/`) — for the heading matching `key`, replace its existing heading and body
if present, else append a new heading and body block at the end of the note. -/
def replaceSection (note : List NLine) (key newHeading : String) (level : Nat)
    (bodyLines : List String) : List NLine :=
  if note.any (matchesHeading key) then
    replaceFirstSection key newHeading level bodyLines note
  else
    note ++ NLine.heading level newHeading :: bodyLines.map NLine.body

/-- Number of heading blocks in a note matching `key`. -/
def countMatching (key : String) (note : List NLine) : Nat :=
  note.countP (matchesHeading key)

/-- Trace prefix of every run that reaches the point where the search promise is
resolved: period resolution, terms acquisition, validation, search invocation
and destination selection. -/
def runPrefix (args : Args) (tp tt td : List Event) (fromS toS pS paps : String)
    (l : List String) (dest : String) : List Event :=
  tp ++ [Event.logDebug ("- time period for search: " ++ pS ++ " / " ++ paps)]
    ++ tt ++ [Event.logDebug ("- called non-interactively? " ++ toString args.searchTermsArg.isSome)]
    ++ [Event.logDebug "arg3 -> para types", Event.showLoading true, Event.runSearches l fromS toS]
    ++ td ++ [Event.logDebug ("destination = " ++ dest ++ ", started with destinationArg = "
          ++ args.destinationArg.getD "undefined")]

/-- Concrete configuration used by the evaluation witnesses. -/
def cfg0 : SearchConfig := ⟨2, false, ["#waiting"], "Saved Searches", "Search Results"⟩

/-- Concrete oracle environment used by the evaluation witnesses. -/
def env0 : Env := {
  config := cfg0
  userPeriod := Except.ok (some "20240101", some "20240131", "month", "Jan 2024", "Jan 2024")
  userTerms := Except.ok (some "#foo")
  validate := fun s => if s = "" then Except.ok none else Except.ok (some [s])
  userDestination := Except.ok "newnote"
  searchResult := Except.ok ⟨3, ["#foo"]⟩
  getSearchTermsRep := fun l => String.intercalate " " l
  formattedLines := ["line1"]
  editorNote := some "note.md"
  writeNoteFilename := Except.ok "folder/title.md"
  noteOpenInEditor := true }

/-- Environment whose validator reports zero valid terms for the all-sigil
expression. -/
def envZeroTerms : Env :=
  { env0 with validate := fun s =>
      if s = "+ , - ," then Except.ok (some []) else Except.ok (some [s]) }

/-- Environment whose search resolves with an empty result set. -/
def envNoResults : Env := { env0 with searchResult := Except.ok ⟨0, ["#foo"]⟩ }

/-- Environment where the user picks the `current` destination while no note is
open in the editor. -/
def envCurrentNoNote : Env :=
  { env0 with userDestination := Except.ok "current", editorNote := none }

/-- Environment whose term validator throws. -/
def envValidateThrows : Env := { env0 with validate := fun _ => Except.error "boom" }

/-- Environment whose search promise rejects. -/
def envSearchRejects : Env := { env0 with searchResult := Except.error "Search failed" }

theorem mem_seqStep {α : Type} {s : List Event × Step α}
    {k : α → List Event × Except String Unit} {e : Event} (he : e ∈ (seqStep s k).1) :
    e ∈ s.1 ∨ ∃ a, s.2 = Step.next a ∧ e ∈ (k a).1 := by
  obtain ⟨tr, st⟩ := s
  cases st with
  | next a => simp only [seqStep, List.mem_append] at he
              rcases he with h | h
              · exact Or.inl h
              · exact Or.inr ⟨a, rfl, h⟩
  | done => exact Or.inl he
  | thrown e' => exact Or.inl he

theorem mem_withEvents {evs : List Event} {r : List Event × Except String Unit} {e : Event}
    (he : e ∈ (withEvents evs r).1) : e ∈ evs ∨ e ∈ r.1 := by
  simpa [withEvents] using he

theorem periodStage_tags (args : Args) (env : Env) :
    ∀ e ∈ (periodStage args env).1, e.tag = ETag.pPeriod ∨ e.tag = ETag.logE := by
  unfold periodStage
  repeat' split
  all_goals intro e he
  all_goals cases e <;> simp_all [Event.tag]

theorem termsStage_tags (args : Args) (env : Env) :
    ∀ e ∈ (termsStage args env).1,
      e.tag = ETag.logD ∨ e.tag = ETag.pInput ∨ e.tag = ETag.logI := by
  unfold termsStage
  repeat' split
  all_goals intro e he
  all_goals cases e <;> simp_all [Event.tag]

theorem validateStage_tags (env : Env) (ts : String) :
    ∀ e ∈ (validateStage env ts).1, e.tag = ETag.msg := by
  unfold validateStage
  repeat' split
  all_goals intro e he
  all_goals cases e <;> simp_all [Event.tag]

theorem destinationStage_tags (b : Bool) (env : Env) (pS : String) :
    ∀ e ∈ (destinationStage b env pS).1, e.tag = ETag.pOpts := by
  unfold destinationStage
  repeat' split
  all_goals intro e he
  all_goals cases e <;> simp_all [Event.tag]

theorem destinationStage_forced (b : Bool) (env : Env) (pS : String)
    (h : (b || env.config.autoSave) = true) :
    destinationStage b env pS = ([], Step.next "newnote") := by
  simp [destinationStage, h]

theorem destinationStage_prompt (b : Bool) (env : Env) (pS : String)
    (h : (b || env.config.autoSave) = false) :
    (destinationStage b env pS).1 =
      [Event.promptOptions (destinationOptions env pS) "newnote"] := by
  unfold destinationStage
  rw [h]
  cases env.userDestination <;> simp

theorem searchPeriod_ok_of_body (args : Args) (env : Env) (tr : List Event)
    (h : searchPeriodBody args env = (tr, Except.ok ())) :
    searchPeriod args env = (tr, Except.ok ()) := by
  simp [searchPeriod, h]

theorem searchPeriod_err_of_body (args : Args) (env : Env) (tr : List Event) (e : String)
    (h : searchPeriodBody args env = (tr, Except.error e)) :
    searchPeriod args env = (tr ++ [Event.logError e], Except.ok ()) := by
  simp [searchPeriod, h]

theorem searchPeriodBody_order_fail (args : Args) (env : Env) (tp : List Event)
    (fromS toS pS paps : String)
    (hp : periodStage args env = (tp, Step.next (fromS, toS, pS, paps)))
    (horder : strLt toS fromS = true) :
    searchPeriodBody args env =
      (tp ++ [Event.logError ("Stopping: fromDate " ++ fromS ++ " is after toDate " ++ toS)],
       Except.ok ()) := by
  simp [searchPeriodBody, seqStep, hp, horder]

theorem searchPeriodBody_invalid_terms (args : Args) (env : Env) (tp tt : List Event)
    (fromS toS pS paps ts : String)
    (hp : periodStage args env = (tp, Step.next (fromS, toS, pS, paps)))
    (horder : strLt toS fromS = false)
    (ht : termsStage args env = (tt, Step.next ts))
    (hv : validateStage env ts = ([Event.showMessage invalidTermsMsg], Step.done)) :
    searchPeriodBody args env =
      (tp ++ [Event.logDebug ("- time period for search: " ++ pS ++ " / " ++ paps)]
        ++ tt ++ [Event.logDebug ("- called non-interactively? " ++ toString args.searchTermsArg.isSome)]
        ++ [Event.showMessage invalidTermsMsg],
       Except.ok ()) := by
  simp [searchPeriodBody, seqStep, withEvents, hp, horder, ht, hv]

theorem searchPeriodBody_to_await (args : Args) (env : Env) (tp tt td : List Event)
    (fromS toS pS paps ts dest : String) (l : List String)
    (hp : periodStage args env = (tp, Step.next (fromS, toS, pS, paps)))
    (horder : strLt toS fromS = false)
    (ht : termsStage args env = (tt, Step.next ts))
    (hv : validateStage env ts = ([], Step.next l))
    (hd : destinationStage args.searchTermsArg.isSome env pS = (td, Step.next dest)) :
    searchPeriodBody args env =
      withEvents (runPrefix args tp tt td fromS toS pS paps l dest)
        (match env.searchResult with
         | Except.error e => ([], Except.error e)
         | Except.ok rs =>
           withEvents [Event.showLoading false] <|
           if rs.resultCount = 0 then
             ([Event.logDebug ("No results found for search " ++ env.getSearchTermsRep l),
               Event.showMessage ("No results found for search " ++ env.getSearchTermsRep l)],
              Except.ok ())
           else outputStage env dest ts paps rs) := by
  simp [searchPeriodBody, seqStep, withEvents, runPrefix, hp, horder, ht, hv, hd,
    List.append_assoc]

theorem outputStage_tags (env : Env) (dest ts paps : String) (rs : ResultSet) :
    ∀ e ∈ (outputStage env dest ts paps rs).1,
      e.tag = ETag.format ∨ e.tag = ETag.logD ∨ e.tag = ETag.logE ∨ e.tag = ETag.logI
        ∨ e.tag = ETag.replaceS ∨ e.tag = ETag.writeN ∨ e.tag = ETag.openN := by
  unfold outputStage
  repeat' split
  all_goals intro e he
  all_goals cases e <;> simp_all [Event.tag]

theorem mem_searchPeriod_of_body {args : Args} {env : Env} {e : Event}
    (h : e ∈ (searchPeriodBody args env).1) : e ∈ (searchPeriod args env).1 := by
  unfold searchPeriod
  rcases hb : searchPeriodBody args env with ⟨tr, ex⟩
  rw [hb] at h
  cases ex
  · exact List.mem_append_left _ h
  · exact h

theorem runPrefix_tags (args : Args) (env : Env) (tp tt td : List Event)
    (fromS toS pS paps : String) (l : List String) (dest : String)
    (hp : (periodStage args env).1 = tp)
    (ht : (termsStage args env).1 = tt)
    (hd : ∀ e ∈ td, e.tag = ETag.pOpts) :
    ∀ e ∈ runPrefix args tp tt td fromS toS pS paps l dest,
      e.tag = ETag.pPeriod ∨ e.tag = ETag.logE ∨ e.tag = ETag.logD ∨ e.tag = ETag.pInput
        ∨ e.tag = ETag.logI ∨ e.tag = ETag.loading ∨ e.tag = ETag.search
        ∨ e.tag = ETag.pOpts := by
  intro e he
  simp only [runPrefix, List.append_assoc, List.mem_append, List.mem_cons,
    List.not_mem_nil, or_false] at he
  rcases he with h | h | h | h | (h | h | h) | h | h
  · rcases periodStage_tags args env e (by rw [hp]; exact h) with h' | h' <;> simp [h']
  · subst h; simp [Event.tag]
  · rcases termsStage_tags args env e (by rw [ht]; exact h) with h' | h' | h' <;> simp [h']
  · subst h; simp [Event.tag]
  · subst h; simp [Event.tag]
  · subst h; simp [Event.tag]
  · subst h; simp [Event.tag]
  · simp [hd e h]
  · subst h; simp [Event.tag]

theorem searchPeriod_no_prompt_of_forced (args : Args) (env : Env)
    (h : (args.searchTermsArg.isSome || env.config.autoSave) = true) :
    ∀ e ∈ (searchPeriod args env).1, e.tag ≠ ETag.pOpts := by
  have hbody : ∀ e ∈ (searchPeriodBody args env).1, e.tag ≠ ETag.pOpts := by
    intro e he
    unfold searchPeriodBody at he
    rcases mem_seqStep he with h1 | ⟨pr, _, he⟩
    · rcases periodStage_tags args env e h1 with ht | ht <;> simp [ht]
    · obtain ⟨fromS, toS, pS, paps⟩ := pr
      dsimp only at he
      split at he
      · simp at he; subst he; simp [Event.tag]
      · rcases mem_withEvents he with h1 | he
        · simp at h1; subst h1; simp [Event.tag]
        · rcases mem_seqStep he with h1 | ⟨ts, _, he⟩
          · rcases termsStage_tags args env e h1 with ht | ht | ht <;> simp [ht]
          · rcases mem_withEvents he with h1 | he
            · simp at h1; subst h1; simp [Event.tag]
            · rcases mem_seqStep he with h1 | ⟨l, _, he⟩
              · have ht := validateStage_tags env ts e h1; simp [ht]
              · rcases mem_withEvents he with h1 | he
                · simp at h1; rcases h1 with h1 | h1 | h1 <;> subst h1 <;> simp [Event.tag]
                · rcases mem_seqStep he with h1 | ⟨dest, _, he⟩
                  · rw [destinationStage_forced _ _ _ h] at h1; simp at h1
                  · rcases mem_withEvents he with h1 | he
                    · simp at h1; subst h1; simp [Event.tag]
                    · rcases hsr : env.searchResult with e' | rs
                      · rw [hsr] at he; simp at he
                      · rw [hsr] at he
                        dsimp only at he
                        rcases mem_withEvents he with h1 | he
                        · simp at h1; subst h1; simp [Event.tag]
                        · split at he
                          · simp at he
                            rcases he with h1 | h1 <;> subst h1 <;> simp [Event.tag]
                          · rcases outputStage_tags env dest ts paps rs e he with
                              ht | ht | ht | ht | ht | ht | ht <;> simp [ht]
  intro e he
  unfold searchPeriod at he
  split at he
  · next tr _ heq =>
    exact hbody e (by rw [heq]; exact he)
  · next tr e' heq =>
    simp only at he
    rcases List.mem_append.mp he with h1 | h1
    · exact hbody e (by rw [heq]; exact h1)
    · simp at h1; subst h1; simp [Event.tag]

theorem countP_map_body (key : String) (ls : List String) :
    (ls.map NLine.body).countP (matchesHeading key) = 0 := by
  induction ls <;> simp_all [List.countP_cons, matchesHeading]

theorem countMatching_replaceFirstSection (key nh : String) (lvl : Nat) (body : List String)
    (note : List NLine) (hpre : strPrefix key nh = true)
    (hany : note.any (matchesHeading key) = true)
    (hle : countMatching key note ≤ 1) :
    countMatching key (replaceFirstSection key nh lvl body note) = 1 := by
  induction note with
  | nil => simp at hany
  | cons x rest ih =>
    unfold countMatching at hle ⊢
    by_cases hx : matchesHeading key x = true
    · unfold replaceFirstSection
      rw [if_pos hx]
      rw [List.countP_cons, if_pos hx] at hle
      have hr0 : rest.countP (matchesHeading key) = 0 := by omega
      have hdw : (rest.dropWhile NLine.isBody).countP (matchesHeading key) = 0 := by
        have hsub := List.Sublist.countP_le (matchesHeading key)
          (@List.dropWhile_sublist NLine rest NLine.isBody)
        omega
      simp [List.countP_cons, List.countP_append, countP_map_body, hdw, matchesHeading, hpre]
    · unfold replaceFirstSection
      rw [if_neg hx]
      have hany' : rest.any (matchesHeading key) = true := by
        rcases List.any_eq_true.mp hany with ⟨a, ha, hpa⟩
        rcases List.mem_cons.mp ha with rfl | ha'
        · exact absurd hpa hx
        · exact List.any_eq_true.mpr ⟨a, ha', hpa⟩
      rw [List.countP_cons, if_neg hx] at hle
      rw [List.countP_cons, if_neg hx]
      simpa using ih hany' (by unfold countMatching; omega)

theorem countMatching_replaceSection (note : List NLine) (key nh : String) (lvl : Nat)
    (body : List String) (hpre : strPrefix key nh = true)
    (hle : countMatching key note ≤ 1) :
    countMatching key (replaceSection note key nh lvl body) = 1 := by
  unfold replaceSection
  by_cases hany : note.any (matchesHeading key) = true
  · rw [if_pos hany]
    exact countMatching_replaceFirstSection key nh lvl body note hpre hany hle
  · rw [if_neg hany]
    have h0 : countMatching key note = 0 :=
      List.countP_eq_zero.mpr fun a ha hpa => hany (List.any_eq_true.mpr ⟨a, ha, hpa⟩)
    unfold countMatching at h0 ⊢
    rw [List.countP_append, h0, List.countP_cons, countP_map_body]
    simp [matchesHeading, hpre]

/-- C1: the claim says the defaulting of the end date is decided by `toDateArg`
alone.  In the code the guard at source line 96 tests `fromDateArg`, so with
`fromDateArg = "default"` and `toDateArg = "20240131"` the end date string stays
empty instead of becoming `"20240131"`, and with `fromDateArg = "20240101"` and
`toDateArg = "default"` the sentinel itself is parsed and becomes `"error"`. -/
theorem searchPeriod_toDate_default_bug :
    periodStage ⟨some "#project", "default", "20240131", "", none⟩ env0
      = ([], Step.next ("", "", " - ", " - "))
    ∧ parseDateArg "20240131" = "20240131"
    ∧ periodStage ⟨some "#project", "20240101", "default", "", none⟩ env0
      = ([], Step.next ("20240101", "error", "20240101 - error", "20240101 - error")) := by
  refine ⟨rfl, rfl, rfl⟩

/-- C2: the claim says a malformed date argument aborts the invocation with a
message dialog before `runSearchesV2` runs.  With `fromDateArg = "20240101"` and
the malformed `toDateArg = "foo!"`, the run instead reaches the search with the
literal end date `"error"` and shows no dialog at all. -/
theorem searchPeriod_bad_toDate_reaches_search :
    Event.runSearches ["#project"] "20240101" "error"
      ∈ (searchPeriod ⟨some "#project", "20240101", "foo!", "", none⟩ env0).1
    ∧ ∀ e ∈ (searchPeriod ⟨some "#project", "20240101", "foo!", "", none⟩ env0).1,
        e.tag ≠ ETag.msg := by
  decide

/-- C7: whenever the resolved compact from-date label sorts lexically after the
resolved to-date label, `searchPeriod` logs an ordering error and returns
before the search executes: no `runSearchesV2` invocation appears in the
trace. -/
theorem searchPeriod_date_order_aborts (args : Args) (env : Env) (tp : List Event)
    (fromS toS pS paps : String)
    (hp : periodStage args env = (tp, Step.next (fromS, toS, pS, paps)))
    (horder : strLt toS fromS = true) :
    searchPeriod args env =
      (tp ++ [Event.logError ("Stopping: fromDate " ++ fromS ++ " is after toDate " ++ toS)],
       Except.ok ())
    ∧ ∀ e ∈ (searchPeriod args env).1, e.tag ≠ ETag.search := by
  have hb := searchPeriodBody_order_fail args env tp fromS toS pS paps hp horder
  have hs := searchPeriod_ok_of_body _ _ _ hb
  refine ⟨hs, ?_⟩
  intro e he
  rw [hs] at he
  rcases List.mem_append.mp he with h1 | h1
  · rcases periodStage_tags args env e (by rw [hp]; exact h1) with ht | ht <;> simp [ht]
  · simp at h1; subst h1; simp [Event.tag]

/-- Evaluation witness for the ordering-abort theorem at
`fromDateArg = "20240202"`, `toDateArg = "20240101"`. -/
theorem searchPeriod_date_order_aborts_witness :
    searchPeriod ⟨some "#p", "20240202", "20240101", "", none⟩ env0 =
      ([] ++ [Event.logError "Stopping: fromDate 20240202 is after toDate 20240101"],
       Except.ok ()) :=
  (searchPeriod_date_order_aborts ⟨some "#p", "20240202", "20240101", "", none⟩ env0
    [] "20240202" "20240101" "20240202 - 20240101" "20240202 - 20240101" rfl (by decide)).1

/-- C5: whenever `validateAndTypeSearchTerms` yields `null` or an empty term
list for the term expression in use, `searchPeriod` shows the invalid-terms
dialog and returns without ever invoking `runSearchesV2`. -/
theorem searchPeriod_zero_terms_aborts (args : Args) (env : Env) (tp tt : List Event)
    (fromS toS pS paps ts : String)
    (hp : periodStage args env = (tp, Step.next (fromS, toS, pS, paps)))
    (horder : strLt toS fromS = false)
    (ht : termsStage args env = (tt, Step.next ts))
    (hv : env.validate ts = Except.ok none ∨ env.validate ts = Except.ok (some [])) :
    Event.showMessage invalidTermsMsg ∈ (searchPeriod args env).1
    ∧ (searchPeriod args env).2 = Except.ok ()
    ∧ ∀ e ∈ (searchPeriod args env).1, e.tag ≠ ETag.search := by
  have hvs : validateStage env ts = ([Event.showMessage invalidTermsMsg], Step.done) := by
    rcases hv with hv | hv <;> simp [validateStage, hv]
  have hb := searchPeriodBody_invalid_terms args env tp tt fromS toS pS paps ts hp horder ht hvs
  have hs := searchPeriod_ok_of_body _ _ _ hb
  refine ⟨by rw [hs]; simp, by rw [hs], ?_⟩
  intro e he
  rw [hs] at he
  simp only [List.append_assoc, List.mem_append, List.mem_cons, List.not_mem_nil, or_false] at he
  rcases he with h | h | h | h | h
  · rcases periodStage_tags args env e (by rw [hp]; exact h) with h' | h' <;> simp [h']
  · subst h; simp [Event.tag]
  · rcases termsStage_tags args env e (by rw [ht]; exact h) with h' | h' | h' <;> simp [h']
  · subst h; simp [Event.tag]
  · subst h; simp [Event.tag]

/-- Evaluation witness for the zero-valid-terms theorem on the all-sigil
expression `"+ , - ,"`. -/
theorem searchPeriod_zero_terms_aborts_witness :
    Event.showMessage invalidTermsMsg
      ∈ (searchPeriod ⟨some "+ , - ,", "20240101", "20240131", "", none⟩ envZeroTerms).1 :=
  (searchPeriod_zero_terms_aborts ⟨some "+ , - ,", "20240101", "20240131", "", none⟩
    envZeroTerms [] [Event.logDebug "- arg0 -> search term(s) [+ , - ,]"]
    "20240101" "20240131" "20240101 - 20240131" "20240101 - 20240131" "+ , - ,"
    rfl (by decide) rfl (Or.inr rfl)).1

/-- C3: when `searchTermsArg` is defined or `config.autoSave` is set, the
destination is forced to `newnote` and no destination prompt appears anywhere in
the trace, whatever `destinationArg` is (the embedding never reads it when
routing); otherwise the destination dialog offers exactly the four values
`newnote`, `current`, `log`, `cancel` with `newnote` as the default choice. -/
theorem searchPeriod_destination_policy (args : Args) (env : Env) (pS : String) :
    ((args.searchTermsArg.isSome || env.config.autoSave) = true →
      destinationStage args.searchTermsArg.isSome env pS = ([], Step.next "newnote")
      ∧ ∀ e ∈ (searchPeriod args env).1, e.tag ≠ ETag.pOpts)
    ∧ ((args.searchTermsArg.isSome || env.config.autoSave) = false →
      (destinationStage args.searchTermsArg.isSome env pS).1 =
        [Event.promptOptions (destinationOptions env pS) "newnote"]
      ∧ (destinationOptions env pS).map Prod.snd = ["newnote", "current", "log", "cancel"]) := by
  constructor
  · intro h
    exact ⟨destinationStage_forced _ _ _ h, searchPeriod_no_prompt_of_forced args env h⟩
  · intro h
    refine ⟨destinationStage_prompt _ _ _ h, ?_⟩
    simp [destinationOptions]

/-- Evaluation witness for the destination policy: a non-interactive call with
an explicit `destinationArg` never prompts, and the interactive call offers the
four options with `newnote` defaulted. -/
theorem searchPeriod_destination_policy_witness :
    (destinationStage true env0 "p" = ([], Step.next "newnote")
      ∧ ∀ e ∈ (searchPeriod ⟨some "#foo", "20240101", "20240131", "", some "log"⟩ env0).1,
          e.tag ≠ ETag.pOpts)
    ∧ ((destinationStage false env0 "p").1 =
        [Event.promptOptions (destinationOptions env0 "p") "newnote"]
      ∧ (destinationOptions env0 "p").map Prod.snd = ["newnote", "current", "log", "cancel"]) := by
  constructor
  · exact (searchPeriod_destination_policy
      ⟨some "#foo", "20240101", "20240131", "", some "log"⟩ env0 "p").1 rfl
  · exact (searchPeriod_destination_policy
      ⟨none, "default", "default", "", none⟩ env0 "p").2 rfl

/-- C6: whenever the resolved result set has `resultCount = 0`, `searchPeriod`
shows the informational no-results message and returns successfully, with no
formatter invocation and no note or log write anywhere in the trace. -/
theorem searchPeriod_no_results_short_circuit (args : Args) (env : Env)
    (tp tt td : List Event) (fromS toS pS paps ts dest : String) (l : List String)
    (rs : ResultSet)
    (hp : periodStage args env = (tp, Step.next (fromS, toS, pS, paps)))
    (horder : strLt toS fromS = false)
    (ht : termsStage args env = (tt, Step.next ts))
    (hv : validateStage env ts = ([], Step.next l))
    (hd : destinationStage args.searchTermsArg.isSome env pS = (td, Step.next dest))
    (hr : env.searchResult = Except.ok rs)
    (h0 : rs.resultCount = 0) :
    searchPeriod args env =
      (runPrefix args tp tt td fromS toS pS paps l dest
        ++ [Event.showLoading false,
            Event.logDebug ("No results found for search " ++ env.getSearchTermsRep l),
            Event.showMessage ("No results found for search " ++ env.getSearchTermsRep l)],
       Except.ok ())
    ∧ ∀ e ∈ (searchPeriod args env).1,
        e.tag ≠ ETag.format ∧ e.tag ≠ ETag.replaceS ∧ e.tag ≠ ETag.writeN := by
  have hb := searchPeriodBody_to_await args env tp tt td fromS toS pS paps ts dest l
    hp horder ht hv hd
  rw [hr] at hb
  have hs : searchPeriod args env =
      (runPrefix args tp tt td fromS toS pS paps l dest
        ++ [Event.showLoading false,
            Event.logDebug ("No results found for search " ++ env.getSearchTermsRep l),
            Event.showMessage ("No results found for search " ++ env.getSearchTermsRep l)],
       Except.ok ()) := by
    unfold searchPeriod
    rw [hb]
    simp [withEvents, h0]
  refine ⟨hs, ?_⟩
  intro e he
  rw [hs] at he
  rcases List.mem_append.mp he with h1 | h1
  · have hdtags : ∀ e' ∈ td, e'.tag = ETag.pOpts := by
      intro e' he'
      exact destinationStage_tags args.searchTermsArg.isSome env pS e' (by rw [hd]; exact he')
    rcases runPrefix_tags args env tp tt td fromS toS pS paps l dest
        (by rw [hp]) (by rw [ht]) hdtags e h1 with
      h' | h' | h' | h' | h' | h' | h' | h' <;> simp [h']
  · simp at h1
    rcases h1 with h1 | h1 | h1 <;> subst h1 <;> simp [Event.tag]

/-- Evaluation witness for the no-results short circuit. -/
theorem searchPeriod_no_results_short_circuit_witness :
    Event.showMessage "No results found for search #foo"
      ∈ (searchPeriod ⟨some "#foo", "20240101", "20240131", "", none⟩ envNoResults).1 := by
  have h := (searchPeriod_no_results_short_circuit
    ⟨some "#foo", "20240101", "20240131", "", none⟩ envNoResults
    [] [Event.logDebug "- arg0 -> search term(s) [#foo]"] []
    "20240101" "20240131" "20240101 - 20240131" "20240101 - 20240131" "#foo" "newnote"
    ["#foo"] ⟨0, ["#foo"]⟩ rfl (by decide) rfl rfl rfl rfl rfl).1
  rw [h]
  simp only [List.mem_append, List.mem_cons]
  exact Or.inr (Or.inr (Or.inr (Or.inl (by decide))))

/-- C10: in non-interactive mode with `fromDateArg = "default"`, both date
strings keep their initial empty values for every `toDateArg`, the period label
becomes the literal `" - "`, and the search is invoked with empty from/to date
strings. -/
theorem searchPeriod_default_fromDate_empty_dates (ts toArg ptf : String)
    (dar : Option String) (env : Env) (l : List String)
    (hv : validateStage env ts = ([], Step.next l)) :
    periodStage ⟨some ts, "default", toArg, ptf, dar⟩ env
      = ([], Step.next ("", "", " - ", " - "))
    ∧ Event.runSearches l "" ""
        ∈ (searchPeriod ⟨some ts, "default", toArg, ptf, dar⟩ env).1 := by
  have hp : periodStage ⟨some ts, "default", toArg, ptf, dar⟩ env
      = ([], Step.next ("", "", " - ", " - ")) := by
    simp [periodStage]
  refine ⟨hp, ?_⟩
  have ht : termsStage ⟨some ts, "default", toArg, ptf, dar⟩ env
      = ([Event.logDebug ("- arg0 -> search term(s) [" ++ ts ++ "]")], Step.next ts) := rfl
  have hd : destinationStage
      (⟨some ts, "default", toArg, ptf, dar⟩ : Args).searchTermsArg.isSome env " - "
      = ([], Step.next "newnote") := destinationStage_forced _ _ _ (by simp)
  have hb := searchPeriodBody_to_await ⟨some ts, "default", toArg, ptf, dar⟩ env
    [] [Event.logDebug ("- arg0 -> search term(s) [" ++ ts ++ "]")] []
    "" "" " - " " - " ts "newnote" l hp rfl ht hv hd
  apply mem_searchPeriod_of_body
  rw [hb]
  simp [withEvents, runPrefix]

/-- Evaluation witness: with `fromDateArg = "default"` and an explicit
`toDateArg`, the search receives empty date strings. -/
theorem searchPeriod_default_fromDate_empty_dates_witness :
    Event.runSearches ["#foo"] "" ""
      ∈ (searchPeriod ⟨some "#foo", "default", "20240131", "", none⟩ env0).1 :=
  (searchPeriod_default_fromDate_empty_dates "#foo" "20240131" "" none env0 ["#foo"] rfl).2

/-- C4: the `current`-destination write is idempotent.  Writing the section for
`key` (the search-terms representation, a prefix of the written heading) twice
with identical output leaves exactly one instance of the heading block: the
second write replaces the existing section instead of appending a duplicate. -/
theorem replaceSection_current_write_idempotent (note : List NLine) (key nh : String)
    (lvl : Nat) (body : List String)
    (hpre : strPrefix key nh = true)
    (hle : countMatching key note ≤ 1) :
    countMatching key
        (replaceSection (replaceSection note key nh lvl body) key nh lvl body) = 1
    ∧ countMatching key (replaceSection note key nh lvl body) = 1 := by
  have h1 := countMatching_replaceSection note key nh lvl body hpre hle
  exact ⟨countMatching_replaceSection _ key nh lvl body hpre (by omega), h1⟩

/-- Evaluation witness for the idempotent `current` write on a concrete note. -/
theorem replaceSection_current_write_idempotent_witness :
    strPrefix "[#foo]" "[#foo] (3 results) for Jan 2024" = true
    ∧ countMatching "[#foo]" [NLine.heading 2 "Other", NLine.body "x"] ≤ 1
    ∧ countMatching "[#foo]"
        (replaceSection
          (replaceSection [NLine.heading 2 "Other", NLine.body "x"]
            "[#foo]" "[#foo] (3 results) for Jan 2024" 2 ["line1", "line2"])
          "[#foo]" "[#foo] (3 results) for Jan 2024" 2 ["line1", "line2"]) = 1 :=
  ⟨by decide, by decide,
    (replaceSection_current_write_idempotent [NLine.heading 2 "Other", NLine.body "x"]
      "[#foo]" "[#foo] (3 results) for Jan 2024" 2 ["line1", "line2"]
      (by decide) (by decide)).1⟩

/-- C8 counterexample: in a concrete run routed to `current` with no note open,
the failure is reported only through `logError`; no user-facing dialog appears
anywhere in the trace, contradicting the claim that a dialog accompanies the
logged error. -/
theorem searchPeriod_current_no_note_no_dialog :
    Event.logError "No note is open"
      ∈ (searchPeriod ⟨none, "default", "default", "", none⟩ envCurrentNoNote).1
    ∧ ∀ e ∈ (searchPeriod ⟨none, "default", "default", "", none⟩ envCurrentNoNote).1,
        e.tag ≠ ETag.msg := by
  decide

/-- C8 as amended: when the `current` destination is selected and no note is
open in the editor, the run logs the error `"No note is open"`, performs no
note write and shows no dialog, and terminates normally without an unhandled
fault. -/
theorem searchPeriod_current_no_note_logs_only (args : Args) (env : Env)
    (tp tt td : List Event) (fromS toS pS paps ts : String) (l : List String)
    (rs : ResultSet)
    (hp : periodStage args env = (tp, Step.next (fromS, toS, pS, paps)))
    (horder : strLt toS fromS = false)
    (ht : termsStage args env = (tt, Step.next ts))
    (hv : validateStage env ts = ([], Step.next l))
    (hd : destinationStage args.searchTermsArg.isSome env pS = (td, Step.next "current"))
    (hr : env.searchResult = Except.ok rs)
    (hn : rs.resultCount ≠ 0)
    (hnote : env.editorNote = none) :
    Event.logError "No note is open" ∈ (searchPeriod args env).1
    ∧ (searchPeriod args env).2 = Except.ok ()
    ∧ ∀ e ∈ (searchPeriod args env).1,
        e.tag ≠ ETag.replaceS ∧ e.tag ≠ ETag.writeN ∧ e.tag ≠ ETag.msg := by
  have hb := searchPeriodBody_to_await args env tp tt td fromS toS pS paps ts "current" l
    hp horder ht hv hd
  rw [hr] at hb
  have hs : searchPeriod args env =
      (runPrefix args tp tt td fromS toS pS paps l "current"
        ++ [Event.showLoading false, Event.formatResults, Event.logError "No note is open"],
       Except.ok ()) := by
    unfold searchPeriod
    rw [hb]
    simp [withEvents, hn, outputStage, hnote]
  refine ⟨by rw [hs]; simp, by rw [hs], ?_⟩
  intro e he
  rw [hs] at he
  rcases List.mem_append.mp he with h1 | h1
  · have hdtags : ∀ e' ∈ td, e'.tag = ETag.pOpts := by
      intro e' he'
      exact destinationStage_tags args.searchTermsArg.isSome env pS e' (by rw [hd]; exact he')
    rcases runPrefix_tags args env tp tt td fromS toS pS paps l "current"
        (by rw [hp]) (by rw [ht]) hdtags e h1 with
      h' | h' | h' | h' | h' | h' | h' | h' <;> simp [h']
  · simp at h1
    rcases h1 with h1 | h1 | h1 <;> subst h1 <;> simp [Event.tag]

/-- Evaluation witness for the amended no-note behaviour in a concrete
interactive run. -/
theorem searchPeriod_current_no_note_logs_only_witness :
    Event.logError "No note is open"
      ∈ (searchPeriod ⟨none, "default", "default", "", none⟩ envCurrentNoNote).1
    ∧ (searchPeriod ⟨none, "default", "default", "", none⟩ envCurrentNoNote).2 =
        Except.ok () := by
  have h := searchPeriod_current_no_note_logs_only
    ⟨none, "default", "default", "", none⟩ envCurrentNoNote
    [Event.promptPeriod] [Event.promptInput]
    [Event.promptOptions (destinationOptions envCurrentNoNote "Jan 2024") "newnote"]
    "20240101" "20240131" "Jan 2024" "Jan 2024" "#foo" ["#foo"] ⟨3, ["#foo"]⟩
    rfl (by decide) rfl rfl rfl rfl (by decide) rfl
  exact ⟨h.1, h.2.1⟩

/-- C9 counterexample: with a rejected search promise, the exception is caught
and logged but no user-facing message of any kind is shown, contradicting the
claim that the handler converts exceptions to a generic user-facing message. -/
theorem searchPeriod_catch_no_dialog :
    (searchPeriod ⟨none, "default", "default", "", none⟩ envSearchRejects).2 = Except.ok ()
    ∧ Event.logError "Search failed"
        ∈ (searchPeriod ⟨none, "default", "default", "", none⟩ envSearchRejects).1
    ∧ ∀ e ∈ (searchPeriod ⟨none, "default", "default", "", none⟩ envSearchRejects).1,
        e.tag ≠ ETag.msg := by
  refine ⟨rfl, by decide, by decide⟩

/-- C9 as amended: every exception escaping the body of `searchPeriod` is
caught at the top level and appended to the trace as a logged error with the
exception message, and the returned outcome is always success — the promise
never rejects.  The handler produces no user-facing message. -/
theorem searchPeriod_top_level_catch (args : Args) (env : Env) :
    (searchPeriod args env).2 = Except.ok ()
    ∧ ∀ tr e, searchPeriodBody args env = (tr, Except.error e) →
        (searchPeriod args env).1 = tr ++ [Event.logError e] := by
  constructor
  · unfold searchPeriod
    rcases hb : searchPeriodBody args env with ⟨tr, ex⟩
    cases ex <;> simp
  · intro tr e hb
    simp [searchPeriod, hb]

/-- Evaluation witness for the top-level catch: a throwing validator produces a
trace ending in the logged exception message, with a successful outcome. -/
theorem searchPeriod_top_level_catch_witness :
    (searchPeriod ⟨none, "default", "default", "", none⟩ envValidateThrows).1 =
      [Event.promptPeriod,
       Event.logDebug "- time period for search: Jan 2024 / Jan 2024",
       Event.promptInput,
       Event.logDebug "- called non-interactively? false"] ++ [Event.logError "boom"] :=
  (searchPeriod_top_level_catch ⟨none, "default", "default", "", none⟩ envValidateThrows).2
    [Event.promptPeriod,
     Event.logDebug "- time period for search: Jan 2024 / Jan 2024",
     Event.promptInput,
     Event.logDebug "- called non-interactively? false"] "boom" rfl

end NotePlan
